import Mathlib

/-!
Shallow embedding of `src/agent.py` (a LiveKit voice-agent assembly) and
proofs of its configuration-resolution and session-trace properties.

The module-level Python code loads a YAML persona file, reads environment
variables (with Python `float` and `int` conversions), and logs warnings
for missing API keys.  The entrypoint builds a session from the resolved
configuration, starts it against a room, and says a greeting.  Fallible
Python steps (attribute errors on non-mapping YAML values, `ValueError`
from numeric conversions, `KeyError` on missing userdata keys) are
modelled with `Except`.
-/

namespace VoiceAgent

/-! ## Python / YAML value model -/

/-- Values produced by `yaml.safe_load`: Python `None`, booleans, integers,
strings, dicts with string keys, and lists.  (Floating-point YAML scalars
never appear in the code paths under verification and are omitted.) -/
inductive Yaml where
  | null : Yaml
  | bool (b : Bool) : Yaml
  | int (n : Int) : Yaml
  | str (s : String) : Yaml
  | map (kvs : List (String × Yaml)) : Yaml
  | list (xs : List Yaml) : Yaml

/-- First-match lookup in an association list, the model of Python dict
indexing (YAML mappings have distinct keys, so first-match is exact). -/
def lookupKey : List (String × Yaml) → String → Option Yaml
  | [], _ => none
  | (k, v) :: rest, key => if k = key then some v else lookupKey rest key

/-- Python `value.get(key, default)`: succeeds on a dict, raises
`AttributeError` on every non-dict value (`None`, `str`, `int`, `list`,
`bool` have no `get` method). -/
def pyGet (v : Yaml) (key : String) (dflt : Yaml) : Except String Yaml :=
  match v with
  | Yaml.map kvs => Except.ok ((lookupKey kvs key).getD dflt)
  | _ => Except.error ("AttributeError: object has no attribute get")

/-- Default instruction text used when the persona prompt is absent
(agent.py line 39). -/
def defaultInstructions : String := "You are a friendly voice assistant."

/-- agent.py lines 38-39:
`dental_persona = prompts.get("DENTALCLINIC", {})` followed by
`DENTAL_PROMPT = dental_persona.get("Prompt", "You are a friendly voice assistant.")`. -/
def loadDentalPrompt (prompts : Yaml) : Except String Yaml :=
  match pyGet prompts ("DENTALCLINIC") (Yaml.map []) with
  | Except.error e => Except.error e
  | Except.ok persona => pyGet persona ("Prompt") (Yaml.str defaultInstructions)

/-! ## Environment and Python numeric conversions -/

/-- The process environment: `os.getenv` returns `None` for unset keys. -/
def Env : Type := String → Option String

/-- `os.getenv(key, default)`. -/
def getenvD (env : Env) (k : String) (d : String) : String := (env k).getD d

/-- Python truthiness of an optional string (`if not KEY:` fires on `None`
and on the empty string). -/
def truthy : Option String → Bool
  | none => false
  | some s => !s.isEmpty

/-- Value of a digit list read left to right in base 10. -/
def digitsToNat (cs : List Char) : Nat :=
  cs.foldl (fun acc c => acc * 10 + (c.toNat - 48)) 0

/-- Python `float(s)` on plain decimal strings: optional sign, then digits
with an optional fractional part; at least one digit overall.  The exact
rational value is returned.  (Whitespace trimming, underscores, exponents
and `inf`/`nan` forms are accepted by Python but unused by this program,
whose conversions see either the defaults "0.6"/"200" or operator-supplied
settings; the modelled domain covers every string the claims mention.)
Returns `none` where Python raises `ValueError`. -/
def pyFloat (s : String) : Option Rat :=
  let cs := s.data
  let signBody : Int × List Char :=
    match cs with
    | '-' :: rest => (-1, rest)
    | '+' :: rest => (1, rest)
    | _ => (1, cs)
  let sign := signBody.1
  let body := signBody.2
  let intPart := body.takeWhile Char.isDigit
  let rest := body.dropWhile Char.isDigit
  match rest with
  | [] =>
    if intPart.isEmpty then none
    else some ((sign : Rat) * (digitsToNat intPart : Rat))
  | '.' :: frac =>
    if frac.all Char.isDigit && !(intPart.isEmpty && frac.isEmpty) then
      some ((sign : Rat) *
        ((digitsToNat intPart : Rat) +
          (digitsToNat frac : Rat) / ((10 : Rat) ^ frac.length)))
    else none
  | _ => none

/-- Python `int(s)` on plain decimal strings: optional sign then one or
more digits.  Returns `none` where Python raises `ValueError`. -/
def pyInt (s : String) : Option Int :=
  let cs := s.data
  let signBody : Int × List Char :=
    match cs with
    | '-' :: rest => (-1, rest)
    | '+' :: rest => (1, rest)
    | _ => (1, cs)
  let sign := signBody.1
  let ds := signBody.2
  if !ds.isEmpty && ds.all Char.isDigit then
    some (sign * (digitsToNat ds : Int))
  else none

/-! ## Module-level configuration load (agent.py lines 32-61) -/

/-- The warning log lines emitted at import time: one per missing (or
empty) API key, in source order (agent.py lines 45-52).  No other load
step logs anything. -/
def apiKeyWarnings (env : Env) : List String :=
  (if truthy (env ("DEEPGRAM_API_KEY")) then []
   else ["DEEPGRAM_API_KEY not found in environment variables"]) ++
  (if truthy (env ("GROQ_API_KEY")) then []
   else ["GROQ_API_KEY not found in environment variables"])

/-- The module-level constants of agent.py after a successful import,
together with the warnings logged on the way. -/
structure Config where
  dentalPrompt : Yaml
  deepgramApiKey : Option String
  groqApiKey : Option String
  groqModel : String
  groqTemperature : Rat
  groqMaxTokens : Int
  deepgramModel : String
  deepgramLanguage : String
  warnings : List String

/-- Module import of agent.py, lines 32-61, in source order: YAML persona
load first, then API keys (logging warnings), then `GROQ_MODEL`,
`float(os.getenv("GROQ_TEMPERATURE", "0.6"))`,
`int(os.getenv("GROQ_MAX_TOKENS", "200"))`, and the Deepgram settings.
Any raised exception aborts the import. -/
def moduleLoad (env : Env) (prompts : Yaml) : Except String Config :=
  match loadDentalPrompt prompts with
  | Except.error e => Except.error e
  | Except.ok dp =>
    match pyFloat (getenvD env ("GROQ_TEMPERATURE") ("0.6")) with
    | none => Except.error ("ValueError: could not convert string to float")
    | some temp =>
      match pyInt (getenvD env ("GROQ_MAX_TOKENS") ("200")) with
      | none => Except.error ("ValueError: invalid literal for int with base 10")
      | some maxTok =>
        Except.ok
          { dentalPrompt := dp
            deepgramApiKey := env ("DEEPGRAM_API_KEY")
            groqApiKey := env ("GROQ_API_KEY")
            groqModel := getenvD env ("GROQ_MODEL") ("moonshotai/kimi-k2-instruct")
            groqTemperature := temp
            groqMaxTokens := maxTok
            deepgramModel := getenvD env ("DEEPGRAM_MODEL") ("nova-2")
            deepgramLanguage := getenvD env ("DEEPGRAM_LANGUAGE") ("en-IN")
            warnings := apiKeyWarnings env }

/-! ## Noise-cancellation selector (agent.py line 175) -/

/-- `livekit.rtc.ParticipantKind` values. -/
inductive ParticipantKind where
  | standard : ParticipantKind
  | ingress : ParticipantKind
  | egress : ParticipantKind
  | sip : ParticipantKind
  | agent : ParticipantKind
deriving DecidableEq

/-- The two noise-cancellation filters the lambda can pick. -/
inductive NoiseCancellationFilter where
  | BVCTelephony : NoiseCancellationFilter
  | BVC : NoiseCancellationFilter
deriving DecidableEq

/-- The participant carried by the selector parameters. -/
structure Participant where
  kind : ParticipantKind

/-- The `params` argument of the noise-cancellation lambda. -/
structure NcParams where
  participant : Participant

/-- agent.py line 175: `lambda params: noise_cancellation.BVCTelephony()
if params.participant.kind == rtc.ParticipantKind.PARTICIPANT_KIND_SIP
else noise_cancellation.BVC()`. -/
def noiseCancellationSelector (params : NcParams) : NoiseCancellationFilter :=
  if params.participant.kind = ParticipantKind.sip then
    NoiseCancellationFilter.BVCTelephony
  else
    NoiseCancellationFilter.BVC

/-! ## Prewarm hook and per-job entrypoint (agent.py lines 101-184) -/

/-- The one VAD model the repository ever loads (`silero.VAD.load()`). -/
inductive VadModel where
  | sileroLoaded : VadModel
deriving DecidableEq

/-- `proc.userdata`, a string-keyed dict holding VAD models. -/
def Userdata : Type := String → Option VadModel

/-- The empty userdata a fresh worker process starts with. -/
def udInit : Userdata := fun _ => none

/-- Python dict assignment `ud[k] = v`. -/
def udSet (ud : Userdata) (k : String) (v : VadModel) : Userdata :=
  fun key => if key = k then some v else ud key

/-- agent.py line 107: `proc.userdata["vad"] = silero.VAD.load()`. -/
def prewarm (ud : Userdata) : Userdata :=
  udSet ud ("vad") VadModel.sileroLoaded

/-- `deepgram.STT(...)` construction parameters (agent.py lines 128-132). -/
structure SttConfig where
  apiKey : Option String
  model : String
  language : String

/-- `groq.LLM(...)` construction parameters (agent.py lines 136-141). -/
structure LlmConfig where
  apiKey : Option String
  model : String
  temperature : Rat
  maxCompletionTokens : Int

/-- `deepgram.TTS(...)` construction parameters (agent.py lines 145-148). -/
structure TtsConfig where
  apiKey : Option String
  model : String

/-- The turn-detection plugin: `MultilingualModel()`. -/
inductive TurnDetection where
  | multilingualModel : TurnDetection

/-- The `AgentSession(...)` construction parameters (agent.py lines 125-158). -/
structure SessionConfig where
  stt : SttConfig
  llm : LlmConfig
  tts : TtsConfig
  turnDetection : TurnDetection
  vad : VadModel
  preemptiveGeneration : Bool

/-- The `AgentSession(...)` call of the entrypoint, field by field. -/
def mkSessionConfig (cfg : Config) (vad : VadModel) : SessionConfig :=
  { stt :=
      { apiKey := cfg.deepgramApiKey
        model := cfg.deepgramModel
        language := cfg.deepgramLanguage }
    llm :=
      { apiKey := cfg.groqApiKey
        model := cfg.groqModel
        temperature := cfg.groqTemperature
        maxCompletionTokens := cfg.groqMaxTokens }
    tts :=
      { apiKey := cfg.deepgramApiKey
        model := "aura-2-thalia-en" }
    turnDetection := TurnDetection.multilingualModel
    vad := vad
    preemptiveGeneration := true }

/-- `DefaultAgent`: its constructor passes `instructions=DENTAL_PROMPT`
to the framework base class (agent.py lines 72-74). -/
structure DefaultAgent where
  instructions : Yaml

/-- `DefaultAgent()` as constructed in the entrypoint (agent.py line 163). -/
def mkDefaultAgent (cfg : Config) : DefaultAgent :=
  { instructions := cfg.dentalPrompt }

/-- Observable actions of the repository code, in temporal order of a
trace: constructing the session, awaiting `session.start` (carrying the
agent instructions, the room, and the noise-cancellation selector from
its room options), `session.say`, and `session.generate_reply`. -/
inductive Event where
  | constructSession (cfg : SessionConfig) : Event
  | startSession (instructions : Yaml) (room : String)
      (nc : NcParams → NoiseCancellationFilter) : Event
  | say (text : String) : Event
  | generateReply (instructions : String) (allowInterruptions : Bool) : Event

/-- agent.py lines 116-184: the entrypoint builds the session (reading
`ctx.proc.userdata["vad"]`, a `KeyError` if absent), constructs the
agent, awaits `session.start` with the room and noise-cancellation
options, and only then awaits the greeting `session.say`. -/
def entrypoint (cfg : Config) (ud : Userdata) (room : String) :
    Except String (List Event) :=
  match ud ("vad") with
  | none => Except.error ("KeyError: vad")
  | some vad =>
    let assistant := mkDefaultAgent cfg
    Except.ok
      [Event.constructSession (mkSessionConfig cfg vad),
       Event.startSession assistant.instructions room noiseCancellationSelector,
       Event.say ("Hello! Welcome to our dental clinic. How may I help you?")]

/-- Events a raised entrypoint produced: a `KeyError` on the userdata
lookup happens before any session action, so an erroring run emits none. -/
def eventsOf : Except String (List Event) → List Event
  | Except.ok evs => evs
  | Except.error _ => []

/-- `DefaultAgent.on_enter` (agent.py lines 76-84): one
`generate_reply` call with fixed instructions and interruptions allowed. -/
def onEnterEvents : List Event :=
  [Event.generateReply ("Greet the user and offer your assistance.") true]

/-- `DefaultAgent.greet` (agent.py lines 86-93): one direct `say` of a
fixed literal. -/
def greetEvents : List Event :=
  [Event.say ("Hi, I\x27m your AI receptionist. How can I help you today?")]

/-- A worker lifecycle: `prewarm` runs once on the fresh process, then
every job entrypoint runs against the resulting userdata, which no job
modifies (the entrypoint only reads it). -/
def runWorker (cfg : Config) (rooms : List String) :
    List (Except String (List Event)) :=
  rooms.map (entrypoint cfg (prewarm udInit))

/-! ## Shared helper lemmas and concrete example values -/

/-- Evaluation of the default temperature string: Python
`float("0.6")` is exactly six tenths. -/
theorem pyFloat_default_eval : pyFloat ("0.6") = some 0.6 := by
  have h : pyFloat ("0.6") =
      some (((1 : Int) : Rat) *
        ((digitsToNat ['0'] : Rat) +
          (digitsToNat ['6'] : Rat) / (10 : Rat) ^ (['6'] : List Char).length)) := rfl
  have h0 : digitsToNat ['0'] = 0 := rfl
  have h6 : digitsToNat ['6'] = 6 := rfl
  rw [h, h0, h6]
  norm_num

/-- Evaluation of the default token-limit string: `int("200") = 200`. -/
theorem pyInt_default_eval : pyInt ("200") = some 200 := rfl

/-- Inversion of a successful module import: every field of the resulting
configuration is determined by the environment and the YAML document. -/
theorem moduleLoad_ok_inv (env : Env) (prompts : Yaml) (cfg : Config)
    (h : moduleLoad env prompts = Except.ok cfg) :
    loadDentalPrompt prompts = Except.ok cfg.dentalPrompt ∧
    cfg.deepgramApiKey = env ("DEEPGRAM_API_KEY") ∧
    cfg.groqApiKey = env ("GROQ_API_KEY") ∧
    cfg.groqModel = getenvD env ("GROQ_MODEL") ("moonshotai/kimi-k2-instruct") ∧
    pyFloat (getenvD env ("GROQ_TEMPERATURE") ("0.6")) = some cfg.groqTemperature ∧
    pyInt (getenvD env ("GROQ_MAX_TOKENS") ("200")) = some cfg.groqMaxTokens ∧
    cfg.deepgramModel = getenvD env ("DEEPGRAM_MODEL") ("nova-2") ∧
    cfg.deepgramLanguage = getenvD env ("DEEPGRAM_LANGUAGE") ("en-IN") ∧
    cfg.warnings = apiKeyWarnings env := by
  unfold moduleLoad at h
  split at h
  · cases h
  · rename_i dp hdp
    split at h
    · cases h
    · rename_i temp htemp
      split at h
      · cases h
      · rename_i maxTok htok
        simp only [Except.ok.injEq] at h
        subst h
        exact ⟨hdp, rfl, rfl, rfl, htemp, htok, rfl, rfl, rfl⟩

/-- An environment with every variable unset. -/
def envNone : Env := fun _ => none

/-- The configuration an import produces when no environment variable is
set and the YAML document is an empty mapping. -/
def cfgDefault : Config :=
  { dentalPrompt := Yaml.str defaultInstructions
    deepgramApiKey := none
    groqApiKey := none
    groqModel := "moonshotai/kimi-k2-instruct"
    groqTemperature := (pyFloat ("0.6")).getD 0
    groqMaxTokens := 200
    deepgramModel := "nova-2"
    deepgramLanguage := "en-IN"
    warnings := apiKeyWarnings envNone }

/-- `cfgDefault` really is the import result on the empty environment. -/
theorem moduleLoad_envNone : moduleLoad envNone (Yaml.map []) = Except.ok cfgDefault := rfl

/-! ## Claims -/

/-- C1: the audio-input noise-cancellation selector returns the telephony
variant (BVCTelephony) exactly when the participant kind is SIP, and the
non-telephony variant (BVC) for every other participant kind. -/
theorem noise_cancellation_selection (params : NcParams) :
    (params.participant.kind = ParticipantKind.sip →
      noiseCancellationSelector params = NoiseCancellationFilter.BVCTelephony) ∧
    (params.participant.kind ≠ ParticipantKind.sip →
      noiseCancellationSelector params = NoiseCancellationFilter.BVC) := by
  constructor
  · intro h
    simp [noiseCancellationSelector, h]
  · intro h
    simp [noiseCancellationSelector, h]

/-- C1 witness: the selector evaluated on a SIP participant and on a
standard participant. -/
theorem noise_cancellation_selection_check :
    noiseCancellationSelector { participant := { kind := ParticipantKind.sip } } =
      NoiseCancellationFilter.BVCTelephony ∧
    noiseCancellationSelector { participant := { kind := ParticipantKind.standard } } =
      NoiseCancellationFilter.BVC :=
  ⟨(noise_cancellation_selection { participant := { kind := ParticipantKind.sip } }).1 rfl,
   (noise_cancellation_selection { participant := { kind := ParticipantKind.standard } }).2
     (by decide)⟩

/-- C2: when the loaded YAML mapping lacks a DENTALCLINIC key, or its
DENTALCLINIC entry is a mapping lacking a Prompt key, the loader yields
the literal default instruction string, and a successful import logs
only the API-key warnings (no warning for the missing persona key). -/
theorem persona_default_instructions (kvs : List (String × Yaml))
    (h : lookupKey kvs ("DENTALCLINIC") = none ∨
      ∃ pkvs, lookupKey kvs ("DENTALCLINIC") = some (Yaml.map pkvs) ∧
        lookupKey pkvs ("Prompt") = none) :
    loadDentalPrompt (Yaml.map kvs) = Except.ok (Yaml.str defaultInstructions) ∧
    ∀ env cfg, moduleLoad env (Yaml.map kvs) = Except.ok cfg →
      cfg.dentalPrompt = Yaml.str defaultInstructions ∧
      cfg.warnings = apiKeyWarnings env := by
  have hld : loadDentalPrompt (Yaml.map kvs) = Except.ok (Yaml.str defaultInstructions) := by
    rcases h with h | ⟨pkvs, h1, h2⟩
    · simp [loadDentalPrompt, pyGet, h, lookupKey]
    · simp [loadDentalPrompt, pyGet, h1, h2]
  refine ⟨hld, fun env cfg hcfg => ?_⟩
  obtain ⟨hdp, -, -, -, -, -, -, -, hw⟩ := moduleLoad_ok_inv env (Yaml.map kvs) cfg hcfg
  rw [hld] at hdp
  exact ⟨(Except.ok.inj hdp).symm, hw⟩

/-- C2 witness: the loader on an empty YAML mapping. -/
theorem persona_default_instructions_check :
    loadDentalPrompt (Yaml.map []) = Except.ok (Yaml.str defaultInstructions) :=
  (persona_default_instructions [] (Or.inl rfl)).1

/-- C3: when DENTALCLINIC maps to a mapping whose Prompt field is the
string X, the loader yields exactly X and the agent is constructed with
exactly that instruction text. -/
theorem persona_prompt_exact (kvs pkvs : List (String × Yaml)) (x : String)
    (h1 : lookupKey kvs ("DENTALCLINIC") = some (Yaml.map pkvs))
    (h2 : lookupKey pkvs ("Prompt") = some (Yaml.str x)) :
    loadDentalPrompt (Yaml.map kvs) = Except.ok (Yaml.str x) ∧
    ∀ env cfg, moduleLoad env (Yaml.map kvs) = Except.ok cfg →
      cfg.dentalPrompt = Yaml.str x ∧
      (mkDefaultAgent cfg).instructions = Yaml.str x := by
  have hld : loadDentalPrompt (Yaml.map kvs) = Except.ok (Yaml.str x) := by
    simp [loadDentalPrompt, pyGet, h1, h2]
  refine ⟨hld, fun env cfg hcfg => ?_⟩
  obtain ⟨hdp, -, -, -, -, -, -, -, -⟩ := moduleLoad_ok_inv env (Yaml.map kvs) cfg hcfg
  rw [hld] at hdp
  have hx := (Except.ok.inj hdp).symm
  exact ⟨hx, by simpa [mkDefaultAgent] using hx⟩

/-- C3 witness: the loader on a concrete persona mapping. -/
theorem persona_prompt_exact_check :
    loadDentalPrompt (Yaml.map [(("DENTALCLINIC" : String),
        Yaml.map [(("Prompt" : String), Yaml.str ("You are Harper."))])]) =
      Except.ok (Yaml.str ("You are Harper.")) :=
  (persona_prompt_exact
    [(("DENTALCLINIC" : String), Yaml.map [(("Prompt" : String), Yaml.str ("You are Harper."))])]
    [(("Prompt" : String), Yaml.str ("You are Harper."))]
    ("You are Harper.") rfl rfl).1

/-- C4: each configuration value whose environment variable is unset
resolves to its literal default: model `moonshotai/kimi-k2-instruct`,
temperature `0.6`, token limit `200`, STT model `nova-2`, language
`en-IN`. -/
theorem env_defaults_resolved (env : Env) (prompts : Yaml) (cfg : Config)
    (h : moduleLoad env prompts = Except.ok cfg)
    (hm : env ("GROQ_MODEL") = none)
    (ht : env ("GROQ_TEMPERATURE") = none)
    (hk : env ("GROQ_MAX_TOKENS") = none)
    (hdm : env ("DEEPGRAM_MODEL") = none)
    (hdl : env ("DEEPGRAM_LANGUAGE") = none) :
    cfg.groqModel = "moonshotai/kimi-k2-instruct" ∧
    cfg.groqTemperature = 0.6 ∧
    cfg.groqMaxTokens = 200 ∧
    cfg.deepgramModel = "nova-2" ∧
    cfg.deepgramLanguage = "en-IN" := by
  obtain ⟨-, -, -, h4, h5, h6, h7, h8, -⟩ := moduleLoad_ok_inv env prompts cfg h
  refine ⟨?_, ?_, ?_, ?_, ?_⟩
  · simp only [h4, getenvD, hm, Option.getD_none]
  · simp only [getenvD, ht, Option.getD_none, pyFloat_default_eval] at h5
    exact (Option.some.inj h5).symm
  · simp only [getenvD, hk, Option.getD_none, pyInt_default_eval] at h6
    exact (Option.some.inj h6).symm
  · simp only [h7, getenvD, hdm, Option.getD_none]
  · simp only [h8, getenvD, hdl, Option.getD_none]

/-- C4 witness: the resolved values on the empty environment. -/
theorem env_defaults_resolved_check :
    cfgDefault.groqModel = "moonshotai/kimi-k2-instruct" ∧
    cfgDefault.groqTemperature = 0.6 ∧
    cfgDefault.groqMaxTokens = 200 ∧
    cfgDefault.deepgramModel = "nova-2" ∧
    cfgDefault.deepgramLanguage = "en-IN" :=
  env_defaults_resolved envNone (Yaml.map []) cfgDefault moduleLoad_envNone
    rfl rfl rfl rfl rfl

/-- An environment with both API keys unset and an unparsable
GROQ_TEMPERATURE. -/
def envNoKeysBadTemp : Env := fun k =>
  if k = "GROQ_TEMPERATURE" then some ("abc") else none

/-- C5 counterexample: an environment in which DEEPGRAM_API_KEY and
GROQ_API_KEY are both unset but module loading still raises (the
GROQ_TEMPERATURE float conversion fails), so the claim quantified over
every such environment is false. -/
theorem startup_totality_counterexample :
    envNoKeysBadTemp ("DEEPGRAM_API_KEY") = none ∧
    envNoKeysBadTemp ("GROQ_API_KEY") = none ∧
    moduleLoad envNoKeysBadTemp (Yaml.map []) =
      Except.error ("ValueError: could not convert string to float") :=
  ⟨rfl, rfl, rfl⟩

/-- C5 (amended): for every environment in which both API keys are unset
and the remaining load steps succeed — the GROQ_TEMPERATURE float
conversion and the GROQ_MAX_TOKENS int conversion parse (whether the
variables are unset, so the defaults "0.6"/"200" are converted, or set
to parseable values) and the persona YAML loads — module loading
completes without raising and logs exactly the two missing-key
warnings. -/
theorem startup_two_warnings (env : Env) (prompts : Yaml) (dp : Yaml)
    (temp : Rat) (maxTok : Int)
    (h1 : env ("DEEPGRAM_API_KEY") = none)
    (h2 : env ("GROQ_API_KEY") = none)
    (h3 : pyFloat (getenvD env ("GROQ_TEMPERATURE") ("0.6")) = some temp)
    (h4 : pyInt (getenvD env ("GROQ_MAX_TOKENS") ("200")) = some maxTok)
    (h5 : loadDentalPrompt prompts = Except.ok dp) :
    ∃ cfg, moduleLoad env prompts = Except.ok cfg ∧
      cfg.warnings =
        ["DEEPGRAM_API_KEY not found in environment variables",
         "GROQ_API_KEY not found in environment variables"] := by
  unfold moduleLoad
  rw [h5, h3, h4]
  refine ⟨_, rfl, ?_⟩
  simp [apiKeyWarnings, truthy, h1, h2]

/-- An environment with both API keys unset and GROQ_TEMPERATURE set to
the parseable value "0.7". -/
def envNoKeysTemp07 : Env := fun k =>
  if k = "GROQ_TEMPERATURE" then some ("0.7") else none

/-- C5 witness: the amended statement on an environment with both API
keys unset and GROQ_TEMPERATURE set to a parseable value. -/
theorem startup_two_warnings_check :
    ∃ cfg, moduleLoad envNoKeysTemp07 (Yaml.map []) = Except.ok cfg ∧
      cfg.warnings =
        ["DEEPGRAM_API_KEY not found in environment variables",
         "GROQ_API_KEY not found in environment variables"] :=
  startup_two_warnings envNoKeysTemp07 (Yaml.map []) (Yaml.str defaultInstructions)
    ((pyFloat ("0.7")).getD 0) 200 rfl rfl rfl rfl rfl

/-- C6: prewarm stores the loaded VAD model under the fixed key "vad"
and touches no other key, and every job on the worker reads that same
key, so each session in a worker run is built from the one prewarmed
model instance; no job modifies the userdata (the entrypoint only reads
it, as its type shows). -/
theorem vad_prewarm_once_shared (cfg : Config) (rooms : List String) :
    prewarm udInit ("vad") = some VadModel.sileroLoaded ∧
    (∀ k, k ≠ "vad" → prewarm udInit k = udInit k) ∧
    runWorker cfg rooms = rooms.map (fun r => Except.ok
      [Event.constructSession (mkSessionConfig cfg VadModel.sileroLoaded),
       Event.startSession cfg.dentalPrompt r noiseCancellationSelector,
       Event.say ("Hello! Welcome to our dental clinic. How may I help you?")]) := by
  refine ⟨rfl, ?_, rfl⟩
  intro k hk
  simp [prewarm, udSet, hk]

/-- C6 witness: a one-job worker run on the default configuration. -/
theorem vad_prewarm_once_shared_check :
    runWorker cfgDefault ["example-room"] = (["example-room"] : List String).map
      (fun r => Except.ok
        [Event.constructSession (mkSessionConfig cfgDefault VadModel.sileroLoaded),
         Event.startSession cfgDefault.dentalPrompt r noiseCancellationSelector,
         Event.say ("Hello! Welcome to our dental clinic. How may I help you?")]) :=
  (vad_prewarm_once_shared cfgDefault ["example-room"]).2.2

/-- C7: the entrypoint trace is exactly session construction (with
preemptive generation enabled and the prewarmed VAD), then session
start against the room, then the fixed greeting; every occurrence of
the greeting in the trace is preceded by the start event. -/
theorem entrypoint_greeting_after_start (cfg : Config) (ud : Userdata)
    (room : String) (v : VadModel) (h : ud ("vad") = some v) :
    entrypoint cfg ud room = Except.ok
      [Event.constructSession (mkSessionConfig cfg v),
       Event.startSession cfg.dentalPrompt room noiseCancellationSelector,
       Event.say ("Hello! Welcome to our dental clinic. How may I help you?")] ∧
    (mkSessionConfig cfg v).preemptiveGeneration = true ∧
    (mkSessionConfig cfg v).vad = v ∧
    ∀ evs pre post, entrypoint cfg ud room = Except.ok evs →
      evs = pre ++
        Event.say ("Hello! Welcome to our dental clinic. How may I help you?") :: post →
      Event.startSession cfg.dentalPrompt room noiseCancellationSelector ∈ pre := by
  have he : entrypoint cfg ud room = Except.ok
      [Event.constructSession (mkSessionConfig cfg v),
       Event.startSession cfg.dentalPrompt room noiseCancellationSelector,
       Event.say ("Hello! Welcome to our dental clinic. How may I help you?")] := by
    unfold entrypoint
    rw [h]
    rfl
  refine ⟨he, rfl, rfl, ?_⟩
  intro evs pre post h1 h2
  rw [he] at h1
  obtain rfl : evs = _ := Except.ok.inj h1.symm
  cases pre with
  | nil =>
    injection h2 with ha h2
    exact Event.noConfusion ha
  | cons a pre1 =>
    cases pre1 with
    | nil =>
      injection h2 with ha h2
      injection h2 with hb h2
      exact Event.noConfusion hb
    | cons b pre2 =>
      cases pre2 with
      | nil =>
        injection h2 with ha h2
        injection h2 with hb h2
        rw [← hb]
        simp
      | cons c pre3 =>
        injection h2 with ha h2
        injection h2 with hb h2
        injection h2 with hc h2
        simp at h2

/-- C7 witness: the entrypoint trace on the default configuration and a
prewarmed worker. -/
theorem entrypoint_greeting_after_start_check :
    entrypoint cfgDefault (prewarm udInit) ("example-room") = Except.ok
      [Event.constructSession (mkSessionConfig cfgDefault VadModel.sileroLoaded),
       Event.startSession cfgDefault.dentalPrompt ("example-room") noiseCancellationSelector,
       Event.say ("Hello! Welcome to our dental clinic. How may I help you?")] :=
  (entrypoint_greeting_after_start cfgDefault (prewarm udInit) ("example-room")
    VadModel.sileroLoaded rfl).1

/-- C8: on session entry the agent requests one generated reply with the
fixed instruction text and interruptions allowed, while the direct
greeting of the separate greet method is emitted by no repository
behavior: not by any entrypoint run and not by the on-enter handler. -/
theorem greet_method_unused (cfg : Config) (ud : Userdata) (room : String) :
    onEnterEvents =
      [Event.generateReply ("Greet the user and offer your assistance.") true] ∧
    greetEvents =
      [Event.say ("Hi, I\x27m your AI receptionist. How can I help you today?")] ∧
    Event.say ("Hi, I\x27m your AI receptionist. How can I help you today?") ∉
      eventsOf (entrypoint cfg ud room) ∧
    Event.say ("Hi, I\x27m your AI receptionist. How can I help you today?") ∉
      onEnterEvents := by
  refine ⟨rfl, rfl, ?_, ?_⟩
  · cases hv : ud ("vad") with
    | none => simp [entrypoint, hv, eventsOf]
    | some v => simp [entrypoint, hv, eventsOf]
  · simp [onEnterEvents]

/-- An environment with both API keys set and an unparsable
GROQ_TEMPERATURE. -/
def envKeysBadTemp : Env := fun k =>
  if k = "GROQ_TEMPERATURE" then some ("abc")
  else if k = "DEEPGRAM_API_KEY" then some ("dg-secret")
  else if k = "GROQ_API_KEY" then some ("gq-secret")
  else none

/-- An environment with both API keys set and an unparsable
GROQ_MAX_TOKENS. -/
def envKeysBadMaxTokens : Env := fun k =>
  if k = "GROQ_MAX_TOKENS" then some ("many")
  else if k = "DEEPGRAM_API_KEY" then some ("dg-secret")
  else if k = "GROQ_API_KEY" then some ("gq-secret")
  else none

/-- C9: module loading is not total over environments even with both API
keys present: an unparsable GROQ_TEMPERATURE makes the float conversion
raise, and an unparsable GROQ_MAX_TOKENS makes the int conversion
raise. -/
theorem numeric_env_parse_failure :
    truthy (envKeysBadTemp ("DEEPGRAM_API_KEY")) = true ∧
    truthy (envKeysBadTemp ("GROQ_API_KEY")) = true ∧
    moduleLoad envKeysBadTemp (Yaml.map []) =
      Except.error ("ValueError: could not convert string to float") ∧
    truthy (envKeysBadMaxTokens ("DEEPGRAM_API_KEY")) = true ∧
    truthy (envKeysBadMaxTokens ("GROQ_API_KEY")) = true ∧
    moduleLoad envKeysBadMaxTokens (Yaml.map []) =
      Except.error ("ValueError: invalid literal for int with base 10") :=
  ⟨rfl, rfl, rfl, rfl, rfl, rfl⟩

/-- C10: on a well-formed YAML document that is not a mapping (an empty
document loads as null) or whose DENTALCLINIC entry is a non-mapping
value, the loader raises an attribute error instead of falling back to
the default; a successful load forces the document to be a mapping whose
DENTALCLINIC entry, if present, is itself a mapping. -/
theorem yaml_shape_error :
    loadDentalPrompt Yaml.null =
      Except.error ("AttributeError: object has no attribute get") ∧
    loadDentalPrompt (Yaml.map [(("DENTALCLINIC" : String), Yaml.str ("Welcome"))]) =
      Except.error ("AttributeError: object has no attribute get") ∧
    ∀ y r, loadDentalPrompt y = Except.ok r →
      ∃ kvs, y = Yaml.map kvs ∧
        (lookupKey kvs ("DENTALCLINIC") = none ∨
          ∃ pkvs, lookupKey kvs ("DENTALCLINIC") = some (Yaml.map pkvs)) := by
  refine ⟨rfl, rfl, ?_⟩
  intro y r h
  cases y with
  | null => simp [loadDentalPrompt, pyGet] at h
  | bool b => simp [loadDentalPrompt, pyGet] at h
  | int n => simp [loadDentalPrompt, pyGet] at h
  | str s => simp [loadDentalPrompt, pyGet] at h
  | list xs => simp [loadDentalPrompt, pyGet] at h
  | map kvs =>
    refine ⟨kvs, rfl, ?_⟩
    cases hl : lookupKey kvs ("DENTALCLINIC") with
    | none => exact Or.inl rfl
    | some v =>
      cases v with
      | map pkvs => exact Or.inr ⟨pkvs, rfl⟩
      | null => simp [loadDentalPrompt, pyGet, hl] at h
      | bool b => simp [loadDentalPrompt, pyGet, hl] at h
      | int n => simp [loadDentalPrompt, pyGet, hl] at h
      | str s => simp [loadDentalPrompt, pyGet, hl] at h
      | list xs => simp [loadDentalPrompt, pyGet, hl] at h

/-- C10 witness: a successful load on the empty mapping satisfies the
shape condition. -/
theorem yaml_shape_error_check :
    ∃ kvs, (Yaml.map [] : Yaml) = Yaml.map kvs ∧
      (lookupKey kvs ("DENTALCLINIC") = none ∨
        ∃ pkvs, lookupKey kvs ("DENTALCLINIC") = some (Yaml.map pkvs)) :=
  yaml_shape_error.2.2 (Yaml.map []) (Yaml.str defaultInstructions) rfl

end VoiceAgent
